import Mathlib

/-!
Verification development for the forc-telemetry daemonization and
supervision engine.

The Rust source is shallowly embedded: each effectful routine is
translated into either
* a `Prog` value — a finite tree of events, fork points, exits and
  returns describing the control flow of every process produced by an
  invocation (used for the entrypoints in `lib.rs` and the two
  `Supervisor` routines), or
* a pure state-passing function (used for the `Collector` loop body:
  `enforce_singleton`, `SystemInfo::collect` and its helpers, and
  `send_metrics_files`), with operating-system responses (lock results,
  wait results, clock readings, file mtimes) passed in as explicit
  parameters.

Machine integers (`i64` seconds, exit codes, pids, signals) are modelled
as `Int`; none of the embedded arithmetic can overflow on the values the
source manipulates (timestamps and small constants).
-/

namespace ForcTelemetry

/-- Builder flags set on a `std::fs::OpenOptions` before `open`. -/
structure OpenMode where
  read : Bool
  write : Bool
  append : Bool
  create : Bool
  deriving DecidableEq, Repr

/-- Flags used for log files and the touchfile: `.create(true).append(true)`. -/
def appendCreate : OpenMode := ⟨false, false, true, true⟩

/-- Flags used for spool metrics files: `.read(true)`. -/
def readOnly : OpenMode := ⟨true, false, false, false⟩

/-- Observable side effects of the invoking process. -/
inductive Event where
  | dirCreate (path : String)
  | openFile (path : String) (m : OpenMode)
  | flushEv
  | setsidEv
  | redirectEv
  | chdirEv (path : String)
  | closeFdsEv
  | umaskEv
  | dropLockEv
  | tryLockEv
  | readFileEv (path : String)
  | removeFileEv (path : String)
  | eprintEv (msg : String)
  | getrusageEv
  | sleepEv
  | forkEv
  deriving DecidableEq, Repr

/-- Final fate of one OS process. `looping` marks entry into one of the
two infinite loops (the `Collector` loop and the parent poll loop),
whose per-iteration behaviour is modelled separately below. `panicked`
is a failed Rust `expect` (which aborts the process, it does not exit
with code 1). -/
inductive ProcOutcome where
  | returned
  | exited (code : Int)
  | panicked (msg : String)
  | looping
  deriving DecidableEq, Repr

/-- Control-flow tree of an invocation: `ret` is control returning to the
host code that called the entrypoint, `fork` creates a second process
(first component: the invoking/parent process; second: the child). -/
inductive Prog where
  | done (o : ProcOutcome)
  | ret
  | step (e : Event) (k : Prog)
  | fork (parent child : Prog)
  deriving DecidableEq, Repr

/-- Prefix a list of events onto a program. -/
def stepsOf (es : List Event) (k : Prog) : Prog :=
  es.foldr Prog.step k

/-- Outcome and event trace of the invoking process: at a fork the
invoking process is the fork parent. -/
def callerRun : Prog → ProcOutcome × List Event
  | .done o => (o, [])
  | .ret => (.returned, [])
  | .step e k => ((callerRun k).1, e :: (callerRun k).2)
  | .fork p _ => ((callerRun p).1, Event.forkEv :: (callerRun p).2)

/-- Fates of every process produced by an invocation (left-to-right:
fork parents before their children). -/
def allOutcomes : Prog → List ProcOutcome
  | .done o => [o]
  | .ret => [.returned]
  | .step _ k => allOutcomes k
  | .fork p c => allOutcomes p ++ allOutcomes c

/-!
Process-management helpers from `lib.rs`.
-/

/-- Model of `kill_parent` (lib.rs): fork; the invoking process takes the
`ForkResult::Parent` branch and exits 0; the child continues with `k`. -/
def killParent (k : Prog) : Prog :=
  .fork (.done (.exited 0)) k

/-- Model of `follow_parent` (lib.rs): fork; the invoking process (the
fork parent) receives `Some(child)` and continues with `parentK`; the
child receives `None` and continues with `childK`. -/
def followParent (parentK childK : Prog) : Prog :=
  .fork parentK childK

/-- Model of `detach_process` (lib.rs): `kill_parent`, `setsid`,
`kill_parent` again. -/
def detachProcess (k : Prog) : Prog :=
  killParent (.step .setsidEv (killParent k))

/-- Model of `setup_filesystem` (lib.rs): `chdir("/")`, close file
descriptors 3 and up, clear the umask. -/
def setupFilesystem (k : Prog) : Prog :=
  .step (.chdirEv "/") (.step .closeFdsEv (.step .umaskEv k))

/-- Model of `setup_stdio` (lib.rs): open the module log file in
append/create mode, redirect stderr to it and stdin/stdout to the null
device. -/
def setupStdio (lf : String) (k : Prog) : Prog :=
  .step (.openFile lf appendCreate) (.step .redirectEv k)

/-- Model of `flush_stdio` (lib.rs). -/
def flushStdio (k : Prog) : Prog :=
  .step .flushEv k

/-!
Configuration (`config.rs`). `Config::<T>::default()` resolves the log
and tmp directories and runs `create_dir_all` on each, in that order.
The directory paths are passed in as parameters (they come from
environment variables or the home directory).
-/

/-- Side effects of `Config::<T>::default()` (config.rs):
`create_dir_all` on the log directory, then on the tmp directory. -/
def configDefaultEvents (logDir tmpDir : String) : List Event :=
  [.dirCreate logDir, .dirCreate tmpDir]

/-- Side effects of `Collector::default()`: its `config` field and its
`system_info.config` field each run `Config::<Collector>::default()`. -/
def collectorDefaultEvents (logDir tmpDir : String) : List Event :=
  configDefaultEvents logDir tmpDir ++ configDefaultEvents logDir tmpDir

/-- The `Collector` log file path: log dir joined with `collector.log`. -/
def collectorLogFile (logDir : String) : String :=
  logDir ++ "/collector.log"

/-- The `Supervisor` log file path: log dir joined with `supervisor.log`. -/
def supervisorLogFile (logDir : String) : String :=
  logDir ++ "/supervisor.log"

/-!
`Supervisor` (supervisor.rs).
-/

/-- Result of `nix` `waitpid`: `Ok` of a wait status, or an error. -/
inductive WaitStatusM where
  | exitedW (pid status : Int)
  | signaled (pid sig : Int) (coreDumped : Bool)
  | stopped (pid sig : Int)
  | continuedW (pid : Int)
  | stillAlive
  deriving DecidableEq, Repr

/-- Outcome of the `waitpid` call in `supervise_child_process`. -/
inductive WaitRes where
  | ok (w : WaitStatusM)
  | errRes (e : String)
  deriving DecidableEq, Repr

/-- Model of supervisor.rs lines 81-99: the `match` on
`waitpid(child_pid, WEXITED)` followed by `getrusage(RUSAGE_CHILDREN)`
and `exit(0)`. Returns the captured status value (`_status_code`) and
the rest of the supervisor's control flow. `Exited` captures the exit
status, `Signaled` captures the signal number (`signal as i32`); every
other result prints to stderr and exits 1 before `getrusage`. -/
def superviseChildWait : WaitRes → Option Int × Prog
  | .ok (.exitedW _ s) => (some s, .step .getrusageEv (.done (.exited 0)))
  | .ok (.signaled _ n _) => (some n, .step .getrusageEv (.done (.exited 0)))
  | _ => (none, .step (.eprintEv "Child exited with unknown status") (.done (.exited 1)))

/-- Model of `Supervisor::supervise_child_process` (supervisor.rs):
opt-out check, flush, `follow_parent` (the invoking process becomes the
supervisor, the forked child returns to the caller `k`), stdio and
filesystem setup, then the wait/rusage tail. -/
def superviseChildProg (optOut : Bool) (lf : String) (w : WaitRes) (k : Prog) : Prog :=
  if optOut then k
  else
    flushStdio
      (followParent
        (setupStdio lf (setupFilesystem (superviseChildWait w).2))
        k)

/-- Model of `Supervisor::supervise_parent_process` (supervisor.rs):
opt-out check; resolve the parent pid (`getppid` converted to `u32` —
on failure print and exit 1); flush; double-fork detach; stdio and
filesystem setup; then the poll loop (modelled per-iteration by
`parentPollLoop` below). -/
def superviseParentProg (optOut : Bool) (ppidOk : Bool) (lf : String) (k : Prog) : Prog :=
  if optOut then k
  else if ppidOk then
    flushStdio (detachProcess (setupStdio lf (setupFilesystem (.done .looping))))
  else
    .step (.eprintEv "Error getting parent process pid") (.done (.exited 1))

/-- Model of the `sysinfo` snapshot taken by
`System::new_with_specifics(RefreshKind::nothing())`: no refresh kind is
enabled, so the snapshot holds no process information at all — the set
of pids visible through `System::process` is empty. -/
def systemNewNothing : List Int := []

/-- Model of the poll loop of `supervise_parent_process` (supervisor.rs):
each iteration checks `sysinfo.process(parent_pid)` against the
`snapshot` and, if present, sleeps and continues; if absent it exits 0.
The source never refreshes the snapshot inside the loop (the refresh is
a `TODO` comment), so the snapshot is loop-invariant. The `Nat` argument
is fuel; the returned `Nat` counts the sleep calls performed. -/
def parentPollLoop (snapshot : List Int) (pid : Int) : Nat → Option (ProcOutcome × Nat)
  | 0 => none
  | n + 1 =>
    if pid ∈ snapshot then
      match parentPollLoop snapshot pid n with
      | some (o, k) => some (o, k + 1)
      | none => none
    else
      some (.exited 0, 0)

/-!
`Collector` (collector.rs): start, singleton enforcement, spool drain.
-/

/-- Model of `Collector::start` (collector.rs): opt-out check, flush,
double-fork detach, stdio and filesystem setup, then the infinite
collection loop (modelled per-iteration by `collectorIteration`
below). -/
def collectorStartProg (optOut : Bool) (lf : String) (k : Prog) : Prog :=
  if optOut then k
  else flushStdio (detachProcess (setupStdio lf (setupFilesystem (.done .looping))))

/-!
Entrypoints (`lib.rs`).
-/

/-- Model of the library entrypoint `supervise_child_process` (lib.rs):
`Collector::default().start()` then
`Supervisor::default().supervise_child_process()`; `Prog.ret` is control
returning to the host code after the entrypoint. -/
def superviseChildProcessEntry (optOut : Bool) (w : WaitRes) (logDir tmpDir : String) : Prog :=
  stepsOf (collectorDefaultEvents logDir tmpDir)
    (collectorStartProg optOut (collectorLogFile logDir)
      (stepsOf (configDefaultEvents logDir tmpDir)
        (superviseChildProg optOut (supervisorLogFile logDir) w .ret)))

/-- Model of the library entrypoint `supervise_parent_process` (lib.rs):
`follow_parent()` forks before anything else; the fork parent constructs
a `Supervisor` and runs `supervise_parent_process`, the child constructs
a `Collector` and runs `start`; both branches fall through to
`exit(1)`. -/
def superviseParentProcessEntry (optOut : Bool) (ppidOk : Bool) (logDir tmpDir : String) : Prog :=
  followParent
    (stepsOf (configDefaultEvents logDir tmpDir)
      (superviseParentProg optOut ppidOk (supervisorLogFile logDir) (.done (.exited 1))))
    (stepsOf (collectorDefaultEvents logDir tmpDir)
      (collectorStartProg optOut (collectorLogFile logDir) (.done (.exited 1))))

/-!
Singleton enforcement (`Collector::enforce_singleton`, collector.rs).
-/

/-- Result of a `Flock::lock(_, LockExclusiveNonblock)` attempt. -/
inductive FlockRes where
  | acquired
  | ewouldblock
  | otherErr (e : String)
  deriving DecidableEq, Repr

/-- Mutable state of a `Collector`: the `logfile_lock : Option<Flock<File>>`
field (the lock value itself carries no data we track). -/
structure CollectorSt where
  logfile_lock : Option Unit
  deriving DecidableEq, Repr

/-- Model of `Collector::enforce_singleton` (collector.rs): first drop any
previously held lock (`self.logfile_lock = None`), then open the module
log file `lf` with `.create(true).append(true)` (`openOk` is whether that
open succeeds; failure is an `expect` panic), then attempt a non-blocking
exclusive lock: acquired stores the lock and returns, `EWOULDBLOCK` exits
0, any other lock error prints to stderr and exits 1. -/
def enforceSingleton (st : CollectorSt) (lf : String) (openOk : Bool) (r : FlockRes) :
    CollectorSt × ProcOutcome × List Event :=
  let _ := st
  if openOk then
    match r with
    | .acquired =>
        ({ logfile_lock := some () }, .returned,
         [.dropLockEv, .openFile lf appendCreate, .tryLockEv])
    | .ewouldblock =>
        ({ logfile_lock := none }, .exited 0,
         [.dropLockEv, .openFile lf appendCreate, .tryLockEv])
    | .otherErr e =>
        ({ logfile_lock := none }, .exited 1,
         [.dropLockEv, .openFile lf appendCreate, .tryLockEv,
          .eprintEv ("Error locking logfile: " ++ e)])
  else
    ({ logfile_lock := none }, .panicked "Error opening logfile for locking",
     [.dropLockEv])

/-!
Rate limiter (`SystemInfo`, collector/system_info.rs). The touchfile is
used purely for its modification-time attribute. The filesystem view is
the marker file alone: `none` means the file does not exist; `some (i, m)`
means it exists, `i` identifying the open-file description created when
it was opened and `m` its mtime in seconds. `fid` is the fresh id the OS
would assign on a new open.
-/

/-- `LOG_INTERVAL` (system_info.rs): 86400 seconds, i.e. 24 hours. -/
def LOG_INTERVAL : Int := 86400

/-- Mutable state of a `SystemInfo`: the in-memory `last_logged`
timestamp (seconds), whether the `sysinfo` instance has been
constructed, and the cached touchfile handle. -/
structure SystemInfoSt where
  last_logged : Option Int
  sysinfo : Bool
  touch_filehandle : Option Nat
  deriving DecidableEq, Repr

/-- The marker-file slice of the filesystem. -/
structure TouchFS where
  file : Option (Nat × Int)
  deriving DecidableEq, Repr

/-- The touchfile path: `FUELUP_TMP_DIR/system_info.touch`. -/
def touchPath (tmpDir : String) : String :=
  tmpDir ++ "/system_info.touch"

/-- Model of `SystemInfo::touch_filehandle` (system_info.rs): on the
first call open the touchfile with `.create(true).append(true)` (creating
it, with mtime the current wall-clock time `now`, if it does not exist)
and cache the handle; every later call returns a `try_clone` of the
cached handle — modelled as the same open-file id — without touching the
path again. Returns (state, filesystem, handle id, events). -/
def touchFilehandle (td : String) (s : SystemInfoSt) (fs : TouchFS) (now : Int) (fid : Nat) :
    SystemInfoSt × TouchFS × Nat × List Event :=
  match s.touch_filehandle with
  | some h => (s, fs, h, [])
  | none =>
    match fs.file with
    | some (i, m) =>
        ({ s with touch_filehandle := some i }, ⟨some (i, m)⟩, i,
         [.openFile (touchPath td) appendCreate])
    | none =>
        ({ s with touch_filehandle := some fid }, ⟨some (fid, now)⟩, fid,
         [.openFile (touchPath td) appendCreate])

/-- Model of `fstat(...).st_mtime` on the cached touchfile handle. The
handle exists only once the file does, so in every trace of `collect`
the file is present; the 0 default is unreachable. -/
def fstatMtime (fs : TouchFS) : Int :=
  match fs.file with
  | some (_, m) => m
  | none => 0

/-- The durable-marker tier of `SystemInfo::should_log`: open (creating
if needed) the touchfile, read its mtime via `fstat`, and log only if
`now >= st_mtime + LOG_INTERVAL`. -/
def shouldLogCheck (td : String) (s : SystemInfoSt) (fs : TouchFS) (now : Int) (fid : Nat) :
    SystemInfoSt × TouchFS × Bool :=
  let r := touchFilehandle td s fs now fid
  (r.1, r.2.1, decide (fstatMtime r.2.1 + LOG_INTERVAL ≤ now))

/-- Model of `SystemInfo::should_log` (system_info.rs): if the in-memory
`last_logged` is set and `now < last_logged + LOG_INTERVAL`, skip without
touching the filesystem; otherwise consult the durable marker. -/
def shouldLog (td : String) (s : SystemInfoSt) (fs : TouchFS) (now : Int) (fid : Nat) :
    SystemInfoSt × TouchFS × Bool :=
  match s.last_logged with
  | some l =>
      if now < l + LOG_INTERVAL then (s, fs, false)
      else shouldLogCheck td s fs now fid
  | none => shouldLogCheck td s fs now fid

/-- Model of `SystemInfo::update_touchfile_timestamp` (system_info.rs):
`futimens` on the touchfile handle with `UTIME_OMIT` for atime and `now`
for mtime — the marker's mtime becomes `now`, its content untouched. -/
def updateTouchfileTimestamp (td : String) (s : SystemInfoSt) (fs : TouchFS) (now : Int)
    (fid : Nat) : SystemInfoSt × TouchFS :=
  let r := touchFilehandle td s fs now fid
  (r.1, ⟨r.2.1.file.map (fun p => (p.1, now))⟩)

/-- Model of `SystemInfo::collect` (system_info.rs): read the realtime
clock (`now`, passed in), and if `should_log` says so, advance the
marker's mtime to `now`, set `last_logged := now`, and take the sample
with the lazily-constructed, reused `sysinfo` instance (whose refresh
and logging are `TODO`s in the source; only its construction is
observable). Returns (state, filesystem, sampled?). -/
def collect (td : String) (s : SystemInfoSt) (fs : TouchFS) (now : Int) (fid : Nat) :
    SystemInfoSt × TouchFS × Bool :=
  let r := shouldLog td s fs now fid
  if r.2.2 then
    let u := updateTouchfileTimestamp td r.1 r.2.1 now fid
    ({ u.1 with last_logged := some now, sysinfo := true }, u.2, true)
  else
    (r.1, r.2.1, false)

/-!
Spool drain (`Collector::send_metrics_files`, collector.rs). The spool
filesystem maps full paths to files; each file carries the result its
non-blocking exclusive lock attempt would produce.
-/

/-- A file in the shared temporary directory. -/
structure SpoolFile where
  content : String
  lock : FlockRes
  deriving DecidableEq, Repr

/-- The spool slice of the filesystem: full path to file. -/
abbrev SpoolFS := List (String × SpoolFile)

/-- Character-level prefix test (`s` starts with `p`), structurally
recursive so that concrete instances evaluate inside the kernel. -/
def strStarts (s p : String) : Bool :=
  p.data.isPrefixOf s.data

/-- Character-level drop of the first `n` characters of `s`. -/
def strDrop (s : String) (n : Nat) : String :=
  ⟨s.data.drop n⟩

/-- Model of `read_dir(dir)`: the bare names of the entries living
directly under `dir`. -/
def listDir (dir : String) (fs : SpoolFS) : List String :=
  fs.filterMap (fun e =>
    if strStarts e.1 (dir ++ "/") then some (strDrop e.1 (dir ++ "/").length) else none)

/-- Resolution of a relative path against the current working directory,
as the OS does for `open` and `remove_file`. `read_dir` yields bare
names, never absolute paths. -/
def resolvePath (cwd name : String) : String :=
  if cwd = "/" then "/" ++ name else cwd ++ "/" ++ name

/-- Lookup of a full path in the spool filesystem. -/
def findFile (fs : SpoolFS) (p : String) : Option SpoolFile :=
  match fs with
  | [] => none
  | e :: rest => if e.1 = p then some e.2 else findFile rest p

/-- Deletion of a full path from the spool filesystem. -/
def removePath (fs : SpoolFS) (p : String) : SpoolFS :=
  fs.filter (fun e => e.1 ≠ p)

/-- The per-entry body of `send_metrics_files` (collector.rs), iterated
over the names listed from the tmp directory. For each name starting
with `"metrics"`: open it — passing the bare `filename`, which the OS
resolves against `cwd` (an open failure is an `expect` panic); attempt a
non-blocking exclusive lock (`EWOULDBLOCK` skips the entry, any other
lock error prints and exits 1); on acquisition read the whole content,
hand it off (the send is a `TODO` stub), and `remove_file` the bare
`filename` (again cwd-resolved). Returns
(outcome, filesystem, contents handed off, events). -/
def drainEntries (cwd : String) (names : List String) (fs : SpoolFS) :
    ProcOutcome × SpoolFS × List String × List Event :=
  match names with
  | [] => (.returned, fs, [], [])
  | name :: rest =>
    if strStarts name "metrics" then
      let p := resolvePath cwd name
      match findFile fs p with
      | none => (.panicked "Error opening file", fs, [], [.openFile p readOnly])
      | some f =>
        match f.lock with
        | .ewouldblock =>
            let r := drainEntries cwd rest fs
            (r.1, r.2.1, r.2.2.1, [.openFile p readOnly, .tryLockEv] ++ r.2.2.2)
        | .otherErr e =>
            (.exited 1, fs, [],
             [.openFile p readOnly, .tryLockEv,
              .eprintEv ("Error locking metrics file: " ++ e)])
        | .acquired =>
            let r := drainEntries cwd rest (removePath fs p)
            (r.1, r.2.1, f.content :: r.2.2.1,
             [.openFile p readOnly, .tryLockEv, .readFileEv p, .removeFileEv p] ++ r.2.2.2)
    else
      drainEntries cwd rest fs

/-- Model of `Collector::send_metrics_files` (collector.rs): one drain
pass over the entries of the tmp directory. -/
def sendMetricsFiles (tmpDir cwd : String) (fs : SpoolFS) :
    ProcOutcome × SpoolFS × List String × List Event :=
  drainEntries cwd (listDir tmpDir fs) fs

/-!
One iteration of the `Collector` loop (`Collector::start`, collector.rs):
`enforce_singleton`, then `system_info.collect()`, then
`send_metrics_files()`, then `sleep(SLEEP_INTERVAL)`.
-/

/-- Operating-system responses consumed by one `Collector` loop
iteration. -/
structure IterIn where
  openOk : Bool
  lockRes : FlockRes
  si : SystemInfoSt
  tfs : TouchFS
  now : Int
  fid : Nat
  spool : SpoolFS
  deriving Repr

/-- Model of one iteration of the loop in `Collector::start`
(collector.rs): the iteration begins with `enforce_singleton`; if and
only if that returns does the iteration proceed to collect system info,
drain the spool and sleep. A `.returned` outcome means the iteration
completed and the loop goes round again. -/
def collectorIteration (st : CollectorSt) (lf td cwd : String) (inp : IterIn) :
    CollectorSt × SystemInfoSt × TouchFS × SpoolFS × ProcOutcome × List Event :=
  let e := enforceSingleton st lf inp.openOk inp.lockRes
  match e.2.1 with
  | .returned =>
    let c := collect td inp.si inp.tfs inp.now inp.fid
    let d := sendMetricsFiles td cwd inp.spool
    match d.1 with
    | .returned => (e.1, c.1, c.2.1, d.2.1, .returned, e.2.2 ++ d.2.2.2 ++ [.sleepEv])
    | o => (e.1, c.1, c.2.1, d.2.1, o, e.2.2 ++ d.2.2.2)
  | o => (e.1, inp.si, inp.tfs, inp.spool, o, e.2.2)

/-!
Helper lemmas.
-/

theorem allOutcomes_stepsOf (es : List Event) (k : Prog) :
    allOutcomes (stepsOf es k) = allOutcomes k := by
  induction es with
  | nil => rfl
  | cons e es ih => simpa [stepsOf, allOutcomes] using ih

theorem callerRun_stepsOf (es : List Event) (k : Prog) :
    callerRun (stepsOf es k) = ((callerRun k).1, es ++ (callerRun k).2) := by
  induction es with
  | nil => rfl
  | cons e es ih => simp [stepsOf, callerRun] at ih ⊢; simp [ih]

/-!
Claims.
-/

/-- Claim C1 (refuted; code bug): the claim states that with the opt-out
condition absent, the fork-child branch of the child-supervision
entrypoint `supervise_child_process` returns control to the original
caller, which continues unimpeded, and the entrypoint never terminates
the host. On the code this fails: the entrypoint first runs
`Collector::default().start()`, whose `detach_process` forks and makes
the invoking host process take the fork-parent branch of `kill_parent`
and exit with code 0. This theorem evaluates the model at the failing
input (opt-out absent): the three processes produced end in exit 0,
exit 0 and the collector loop — no process ever returns to the host
code (so `Supervisor::supervise_child_process` and its fork are never
reached), and the invoking process itself exits 0 at the first fork. -/
theorem c1_child_entry_kills_caller (w : WaitRes) (logDir tmpDir : String) :
    allOutcomes (superviseChildProcessEntry false w logDir tmpDir) =
      [.exited 0, .exited 0, .looping] ∧
    ProcOutcome.returned ∉ allOutcomes (superviseChildProcessEntry false w logDir tmpDir) ∧
    callerRun (superviseChildProcessEntry false w logDir tmpDir) =
      (.exited 0, collectorDefaultEvents logDir tmpDir ++ [.flushEv, .forkEv]) := by
  refine ⟨?_, ?_, ?_⟩ <;>
    simp [superviseChildProcessEntry, collectorStartProg, allOutcomes_stepsOf,
      callerRun_stepsOf, flushStdio, detachProcess, killParent, setupStdio,
      setupFilesystem, allOutcomes, callerRun, collectorDefaultEvents,
      configDefaultEvents]

/-- Claim C2 counterexample: the claim states that with FUEL_NO_TELEMETRY
set, invoking either supervision entrypoint performs zero forks and no
side effects. At the concrete input (opt-out set, log dir "/L", tmp dir
"/T"), the library entrypoint `supervise_parent_process` forks before
the opt-out check, its invoking-process branch creates the log and tmp
directories while constructing `Supervisor::default()`, and it exits
with code 1 rather than returning cleanly. -/
theorem c2_optout_parent_entry_forks :
    callerRun (superviseParentProcessEntry true true "/L" "/T") =
      (.exited 1, [.forkEv, .dirCreate "/L", .dirCreate "/T"]) ∧
    Event.forkEv ∈ (callerRun (superviseParentProcessEntry true true "/L" "/T")).2 := by
  refine ⟨rfl, ?_⟩
  decide

/-- Claim C2 as amended: with the opt-out variable set, the module
routines `Collector::start`, `Supervisor::supervise_child_process` and
`Supervisor::supervise_parent_process` each return immediately, with no
filesystem writes, forks or log output; the library entrypoints,
however, still perform side effects before or around the checks:
`supervise_parent_process` forks unconditionally, creates the log and
tmp directories while constructing its `Config`, and exits with code 1,
and `supervise_child_process` creates the log and tmp directories while
constructing `Collector::default()` and `Supervisor::default()`, though
it forks nothing and returns. -/
theorem c2_optout_amended :
    (∀ lf k, collectorStartProg true lf k = k) ∧
    (∀ lf w k, superviseChildProg true lf w k = k) ∧
    (∀ ppidOk lf k, superviseParentProg true ppidOk lf k = k) ∧
    (∀ ppidOk logDir tmpDir,
      callerRun (superviseParentProcessEntry true ppidOk logDir tmpDir) =
        (.exited 1, .forkEv :: configDefaultEvents logDir tmpDir)) ∧
    (∀ w logDir tmpDir,
      callerRun (superviseChildProcessEntry true w logDir tmpDir) =
        (.returned, collectorDefaultEvents logDir tmpDir ++ configDefaultEvents logDir tmpDir)) := by
  refine ⟨fun lf k => rfl, fun lf w k => rfl, fun ppidOk lf k => rfl, ?_, ?_⟩
  · intro ppidOk logDir tmpDir
    simp [superviseParentProcessEntry, followParent, superviseParentProg,
      collectorStartProg, callerRun, callerRun_stepsOf, configDefaultEvents]
  · intro w logDir tmpDir
    simp [superviseChildProcessEntry, collectorStartProg, superviseChildProg,
      callerRun, callerRun_stepsOf, collectorDefaultEvents, configDefaultEvents]

/-- Claim C3 (confirmed): at the start of every `Collector` loop
iteration, any previously held singleton lock is discarded (the
`dropLockEv` assignment of `None`, for an arbitrary prior state `st`),
the module's log file is opened (created if needed) in append mode, and
a non-blocking exclusive lock is attempted; if the lock is acquired the
iteration proceeds (its `SystemInfo` state advances by `collect` and its
trace begins with the three singleton events), if the attempt fails
with would-block the process exits with code 0 having done nothing
else, and on any other locking failure it exits with code 1. -/
theorem c3_singleton_every_iteration (st : CollectorSt) (lf td cwd e : String)
    (si : SystemInfoSt) (tfs : TouchFS) (now : Int) (fid : Nat) (spool : SpoolFS) :
    enforceSingleton st lf true .acquired =
      ({ logfile_lock := some () }, .returned,
        [.dropLockEv, .openFile lf appendCreate, .tryLockEv]) ∧
    enforceSingleton st lf true .ewouldblock =
      ({ logfile_lock := none }, .exited 0,
        [.dropLockEv, .openFile lf appendCreate, .tryLockEv]) ∧
    enforceSingleton st lf true (.otherErr e) =
      ({ logfile_lock := none }, .exited 1,
        [.dropLockEv, .openFile lf appendCreate, .tryLockEv,
         .eprintEv ("Error locking logfile: " ++ e)]) ∧
    collectorIteration st lf td cwd ⟨true, .ewouldblock, si, tfs, now, fid, spool⟩ =
      (⟨none⟩, si, tfs, spool, .exited 0,
        [.dropLockEv, .openFile lf appendCreate, .tryLockEv]) ∧
    (collectorIteration st lf td cwd ⟨true, .acquired, si, tfs, now, fid, spool⟩).2.1 =
      (collect td si tfs now fid).1 ∧
    ((collectorIteration st lf td cwd
        ⟨true, .acquired, si, tfs, now, fid, spool⟩).2.2.2.2.2).take 3 =
      [.dropLockEv, .openFile lf appendCreate, .tryLockEv] := by
  refine ⟨rfl, rfl, rfl, rfl, ?_, ?_⟩ <;>
    cases h : (sendMetricsFiles td cwd spool).1 <;>
      simp [collectorIteration, enforceSingleton, h]

/-- Well-formedness tying the cached touchfile handle to the filesystem:
the handle is cached only once the marker file exists (the handle is
only ever obtained by opening the file with create-if-missing). -/
def handleInv (s : SystemInfoSt) (fs : TouchFS) : Prop :=
  s.touch_filehandle = none ∨ fs.file.isSome = true

theorem collect_some_sampled_iff (td : String) (ll : Option Int) (b : Bool) (h : Option Nat)
    (i : Nat) (m : Int) (now : Int) (fid : Nat) :
    (collect td ⟨ll, b, h⟩ ⟨some (i, m)⟩ now fid).2.2 = true ↔
      ((∀ l, ll = some l → l + LOG_INTERVAL ≤ now) ∧ m + LOG_INTERVAL ≤ now) := by
  rcases ll with _ | l <;> cases h <;>
    simp [collect, shouldLog, shouldLogCheck, touchFilehandle, fstatMtime,
      updateTouchfileTimestamp] <;>
    split_ifs <;> simp_all

theorem collect_some_sampled_fs (td : String) (ll : Option Int) (b : Bool) (h : Option Nat)
    (i : Nat) (m : Int) (now : Int) (fid : Nat)
    (hs : (collect td ⟨ll, b, h⟩ ⟨some (i, m)⟩ now fid).2.2 = true) :
    (collect td ⟨ll, b, h⟩ ⟨some (i, m)⟩ now fid).2.1 = ⟨some (i, now)⟩ := by
  rcases ll with _ | l <;> cases h <;>
    simp [collect, shouldLog, shouldLogCheck, touchFilehandle, fstatMtime,
      updateTouchfileTimestamp] at hs ⊢ <;>
    split_ifs at hs ⊢ <;> simp_all

theorem collect_some_notsampled_fs (td : String) (ll : Option Int) (b : Bool) (h : Option Nat)
    (i : Nat) (m : Int) (now : Int) (fid : Nat)
    (hs : (collect td ⟨ll, b, h⟩ ⟨some (i, m)⟩ now fid).2.2 = false) :
    (collect td ⟨ll, b, h⟩ ⟨some (i, m)⟩ now fid).2.1 = ⟨some (i, m)⟩ := by
  rcases ll with _ | l <;> cases h <;>
    simp [collect, shouldLog, shouldLogCheck, touchFilehandle, fstatMtime,
      updateTouchfileTimestamp] at hs ⊢ <;>
    split_ifs at hs ⊢ <;> simp_all

theorem collect_none_sampled (td : String) (ll : Option Int) (b : Bool)
    (now : Int) (fid : Nat)
    (hs : (collect td ⟨ll, b, none⟩ ⟨none⟩ now fid).2.2 = true) : False := by
  rcases ll with _ | l <;>
    simp [collect, shouldLog, shouldLogCheck, touchFilehandle, fstatMtime,
      updateTouchfileTimestamp, LOG_INTERVAL] at hs <;>
    split_ifs at hs <;> simp_all

/-- Claim C4 (confirmed): for a rate-limiter tick at time `T` with the
24-hour sample interval, provided the in-memory timestamp does not
force a skip: with the durable marker's mtime at `T - 24h - 1s` the
tick samples and advances the marker to `T`; with the marker's mtime at
`T - 1s` the tick does not sample and the marker is unchanged; and in
general, whenever the marker exists, a sample is taken only if
`now >= marker_mtime + interval`. -/
theorem c4_rate_limiter_tick (td : String) (ll : Option Int) (b : Bool) (h : Option Nat)
    (i fid : Nat) (T : Int)
    (hmem : ll = none ∨ ∃ l, ll = some l ∧ l + LOG_INTERVAL ≤ T) :
    ((collect td ⟨ll, b, h⟩ ⟨some (i, T - 86401)⟩ T fid).2.2 = true ∧
     (collect td ⟨ll, b, h⟩ ⟨some (i, T - 86401)⟩ T fid).2.1 = ⟨some (i, T)⟩) ∧
    ((collect td ⟨ll, b, h⟩ ⟨some (i, T - 1)⟩ T fid).2.2 = false ∧
     (collect td ⟨ll, b, h⟩ ⟨some (i, T - 1)⟩ T fid).2.1 = ⟨some (i, T - 1)⟩) ∧
    (∀ (s : SystemInfoSt) (fs : TouchFS) (now : Int) (fid2 j : Nat) (m : Int),
      fs.file = some (j, m) → (collect td s fs now fid2).2.2 = true →
      m + LOG_INTERVAL ≤ now) := by
  have hmem2 : ∀ l, ll = some l → l + LOG_INTERVAL ≤ T := by
    intro l hl
    rcases hmem with rfl | ⟨l2, he, h2⟩
    · exact absurd hl (by simp)
    · rw [hl] at he
      injection he with he
      omega
  have hs1 : (collect td ⟨ll, b, h⟩ ⟨some (i, T - 86401)⟩ T fid).2.2 = true :=
    (collect_some_sampled_iff td ll b h i (T - 86401) T fid).mpr
      ⟨hmem2, by simp [LOG_INTERVAL]; omega⟩
  have hs2 : (collect td ⟨ll, b, h⟩ ⟨some (i, T - 1)⟩ T fid).2.2 = false := by
    rw [← Bool.not_eq_true]
    rw [collect_some_sampled_iff td ll b h i (T - 1) T fid]
    rintro ⟨-, hle⟩
    simp [LOG_INTERVAL] at hle
    omega
  refine ⟨⟨hs1, collect_some_sampled_fs td ll b h i (T - 86401) T fid hs1⟩,
    ⟨hs2, collect_some_notsampled_fs td ll b h i (T - 1) T fid hs2⟩, ?_⟩
  intro s fs now fid2 j m hfile hs
  rcases s with ⟨ll2, b2, h2⟩
  rcases fs with ⟨f⟩
  simp only at hfile
  subst hfile
  exact ((collect_some_sampled_iff td ll2 b2 h2 j m now fid2).mp hs).2

/-- Witness for C4 at `T = 0` with an empty in-memory timestamp. -/
theorem c4_rate_limiter_tick_witness :
    (collect "" ⟨none, false, none⟩ ⟨some (3, (0 : Int) - 86401)⟩ 0 5).2.2 = true :=
  ((c4_rate_limiter_tick "" none false none 3 5 0 (Or.inl rfl)).1).1

/-- Claim C5 (confirmed): whenever a `collect` tick takes a sample, the
durable marker's modification time moves strictly forward: the marker
existed with some mtime `m`, and its new mtime is the current time
`now`, with `m < now`. (`handleInv` rules out the unreachable states in
which a handle is cached for a marker file that was never created.) -/
theorem c5_marker_monotone (td : String) (s : SystemInfoSt) (fs : TouchFS) (now : Int)
    (fid : Nat) (hinv : handleInv s fs)
    (hs : (collect td s fs now fid).2.2 = true) :
    ∃ i m, fs.file = some (i, m) ∧
      (collect td s fs now fid).2.1 = ⟨some (i, now)⟩ ∧ m < now := by
  rcases s with ⟨ll, b, h⟩
  rcases fs with ⟨_ | ⟨i, m⟩⟩
  · simp [handleInv] at hinv
    subst hinv
    exact absurd hs (by intro hs2; exact collect_none_sampled td ll b now fid hs2)
  · have hm := ((collect_some_sampled_iff td ll b h i m now fid).mp hs).2
    exact ⟨i, m, rfl, collect_some_sampled_fs td ll b h i m now fid hs,
      by simp [LOG_INTERVAL] at hm; omega⟩

/-- Witness for C5: a sampling tick at time 0 against a marker last
touched a day earlier. -/
theorem c5_marker_monotone_witness :
    ∃ i m, (⟨some (3, (-86400 : Int))⟩ : TouchFS).file = some (i, m) ∧
      (collect "" ⟨none, false, none⟩ ⟨some (3, (-86400 : Int))⟩ 0 5).2.1 =
        ⟨some (i, 0)⟩ ∧ m < 0 :=
  c5_marker_monotone "" ⟨none, false, none⟩ ⟨some (3, -86400)⟩ 0 5 (Or.inl rfl) (by decide)

/-- Claim C9 (confirmed): on a fresh state with no marker file, the
decision check itself creates the marker (via `touch_filehandle`'s
create-if-missing open), whose mtime is then the current time `T`, and
that first tick does not sample; any later tick on the resulting state
samples only once the full 24-hour interval has elapsed since the
marker's creation. -/
theorem c9_fresh_marker_first_tick (td : String) (b : Bool) (fid : Nat) (T : Int) :
    collect td ⟨none, b, none⟩ ⟨none⟩ T fid =
      (⟨none, b, some fid⟩, ⟨some (fid, T)⟩, false) ∧
    (∀ (T2 : Int) (fid2 : Nat),
      (collect td ⟨none, b, some fid⟩ ⟨some (fid, T)⟩ T2 fid2).2.2 = true →
      T + LOG_INTERVAL ≤ T2) := by
  constructor
  · have harith : ¬ (T + LOG_INTERVAL ≤ T) := by simp only [LOG_INTERVAL]; omega
    simp [collect, shouldLog, shouldLogCheck, touchFilehandle, fstatMtime, harith]
  · intro T2 fid2 hs
    by_cases hc : T + LOG_INTERVAL ≤ T2
    · exact hc
    · exfalso
      simp [collect, shouldLog, shouldLogCheck, touchFilehandle, fstatMtime, hc] at hs

/-- Witness for C9: the fresh tick at time 0 creates the marker and does
not sample, and the tick at exactly 86400 seconds later does. -/
theorem c9_fresh_marker_first_tick_witness :
    collect "" ⟨none, false, none⟩ ⟨none⟩ 0 7 =
      (⟨none, false, some 7⟩, ⟨some (7, 0)⟩, false) ∧
    (0 : Int) + LOG_INTERVAL ≤ 86400 :=
  ⟨(c9_fresh_marker_first_tick "" false 7 0).1,
   (c9_fresh_marker_first_tick "" false 7 0).2 86400 9 (by decide)⟩

/-- Claim C10 (confirmed): `touch_filehandle` opens the marker file at
most once per `SystemInfo` instance: whatever the first call did, every
later call leaves the stored handle and the filesystem unchanged and
returns a duplicate of that same handle, performing no further open (its
event list is empty — the path is not re-resolved). -/
theorem c10_touch_filehandle_opened_once (td : String) (s : SystemInfoSt) (fs : TouchFS)
    (now : Int) (fid : Nat) (now2 : Int) (fid2 : Nat) :
    touchFilehandle td (touchFilehandle td s fs now fid).1
        (touchFilehandle td s fs now fid).2.1 now2 fid2 =
      ((touchFilehandle td s fs now fid).1, (touchFilehandle td s fs now fid).2.1,
       (touchFilehandle td s fs now fid).2.2.1, []) := by
  rcases s with ⟨ll, b, h⟩
  rcases fs with ⟨_ | ⟨i, m⟩⟩ <;> cases h <;> simp [touchFilehandle]

/-- Claim C6 (refuted; code bug): the claim states that a drain pass
locks, reads, hands off and deletes each unlocked `metrics*` entry of
the shared tmp directory. On the code this fails: `send_metrics_files`
passes the bare `file_name()` — not the entry's path — to `open` and
`remove_file`, so the name is resolved against the current working
directory (the filesystem root, after `setup_filesystem`'s `chdir`)
instead of the tmp directory. At the concrete input (tmp dir "/t"
holding the unlocked entry "metricsA", cwd "/") the pass tries to open
"/metricsA", which does not exist, and dies in the `expect` panic
"Error opening file" — nothing is read, handed off or deleted — even
though the entry is present at "/t/metricsA"; with cwd artificially
equal to the tmp dir, the very same pass reads, hands off and deletes
the entry, isolating the path-resolution slip. -/
theorem c6_drain_pass_opens_wrong_path :
    sendMetricsFiles "/t" "/" [("/t/metricsA", ⟨"hello", .acquired⟩)] =
      (.panicked "Error opening file",
       [("/t/metricsA", ⟨"hello", .acquired⟩)], [],
       [.openFile "/metricsA" readOnly]) ∧
    findFile [("/t/metricsA", ⟨"hello", .acquired⟩)] "/t/metricsA" =
      some ⟨"hello", .acquired⟩ ∧
    sendMetricsFiles "/t" "/t" [("/t/metricsA", ⟨"hello", .acquired⟩)] =
      (.returned, [], ["hello"],
       [.openFile "/t/metricsA" readOnly, .tryLockEv,
        .readFileEv "/t/metricsA", .removeFileEv "/t/metricsA"]) := by
  refine ⟨by decide, by decide, by decide⟩

/-- Claim C7 (confirmed): in child-supervision mode, a child that exited
with status `s` yields captured outcome `s`; a child killed by signal
`n` yields captured outcome `n`; in both cases the supervisor then
samples aggregated child resource usage exactly once (`getrusageEv`
appears exactly once in its remaining trace) and exits 0; every other
wait result (stopped, continued, still-alive, or a `waitpid` error)
captures nothing, logs "Child exited with unknown status" and exits
with code 1. -/
theorem c7_child_wait_outcomes (p s n : Int) (c : Bool) (p2 sig2 p3 : Int) (e : String) :
    (superviseChildWait (.ok (.exitedW p s))).1 = some s ∧
    callerRun (superviseChildWait (.ok (.exitedW p s))).2 = (.exited 0, [.getrusageEv]) ∧
    (superviseChildWait (.ok (.signaled p n c))).1 = some n ∧
    callerRun (superviseChildWait (.ok (.signaled p n c))).2 = (.exited 0, [.getrusageEv]) ∧
    superviseChildWait (.ok (.stopped p2 sig2)) =
      (none, .step (.eprintEv "Child exited with unknown status") (.done (.exited 1))) ∧
    superviseChildWait (.ok (.continuedW p3)) =
      (none, .step (.eprintEv "Child exited with unknown status") (.done (.exited 1))) ∧
    superviseChildWait (.ok .stillAlive) =
      (none, .step (.eprintEv "Child exited with unknown status") (.done (.exited 1))) ∧
    superviseChildWait (.errRes e) =
      (none, .step (.eprintEv "Child exited with unknown status") (.done (.exited 1))) ∧
    callerRun (superviseChildWait (.errRes e)).2 =
      (.exited 1, [.eprintEv "Child exited with unknown status"]) := by
  refine ⟨rfl, rfl, rfl, rfl, rfl, rfl, rfl, rfl, rfl⟩

/-- Claim C8 (refuted; code bug): the claim states that every poll-loop
iteration of parent-supervision mode refreshes the sampler's view, that
the loop never exits while the captured parent pid is present, and that
it exits 0 only once the pid is absent. On the code the refresh is a
`TODO`: the `sysinfo` snapshot is built once with
`RefreshKind::nothing()` — containing no process information at all —
and never updated, so for every parent pid (alive or not) the very
first iteration finds the pid absent, performs zero sleeps, and exits
with code 0. -/
theorem c8_parent_loop_exits_immediately (pid : Int) (n : Nat) :
    parentPollLoop systemNewNothing pid (n + 1) = some (.exited 0, 0) ∧
    pid ∉ systemNewNothing := by
  constructor
  · simp [parentPollLoop, systemNewNothing]
  · simp [systemNewNothing]

/-- `handleInv` holds for `SystemInfo::default()` (no cached handle) on a
filesystem without the marker file. -/
theorem handleInv_default : handleInv ⟨none, false, none⟩ ⟨none⟩ :=
  Or.inl rfl

/-- `handleInv` is preserved by every tick, so it holds in every
reachable `SystemInfo` state. -/
theorem collect_preserves_handleInv (td : String) (s : SystemInfoSt) (fs : TouchFS)
    (now : Int) (fid : Nat) (h : handleInv s fs) :
    handleInv (collect td s fs now fid).1 (collect td s fs now fid).2.1 := by
  rcases s with ⟨ll, b, hh⟩
  rcases fs with ⟨_ | ⟨i, m⟩⟩ <;> rcases ll with _ | l <;> cases hh <;>
    simp [handleInv, collect, shouldLog, shouldLogCheck, touchFilehandle, fstatMtime,
      updateTouchfileTimestamp] at h ⊢ <;>
    split_ifs <;> simp_all

end ForcTelemetry
